import Mathlib

/-!
Shallow embedding of the SimplePay API client
(src/simplepay/__init__.py): the request/response normalization layer
(SimplePay.request and SimplePay.request_async), plus the wrapper
methods the claims mention (create_calculation, add_leave_days,
get_leave_days_async, get_payslips_async) and the randomized
pre-request delay of the asynchronous executor.

Modelling conventions:
- a wire response is a status code, the raw body text, and the result
  of attempting to parse the body as JSON (some v on success, none when
  the body is not valid JSON; in that case calling the json() accessor
  raises JSONDecodeError);
- Python exceptions are an explicit error type, and each executor is a
  total function from a response to an Except value;
- Python str()/repr() of parsed-JSON values is embedded as pyStr/pyRepr.
-/

mutual
/-- JSON values, as produced by parsing a response body. -/
inductive Json where
  | null
  | bool (b : Bool)
  | num (n : Int)
  | str (s : String)
  | arr (xs : JsonList)
  | obj (fs : JsonFields)
deriving DecidableEq, Repr

/-- List of JSON values (elements of a JSON array). -/
inductive JsonList where
  | nil
  | cons (x : Json) (xs : JsonList)
deriving DecidableEq, Repr

/-- Key-value fields of a JSON object, in document order. -/
inductive JsonFields where
  | nil
  | cons (k : String) (v : Json) (fs : JsonFields)
deriving DecidableEq, Repr
end

mutual
/-- Python repr of a parsed-JSON value, as str() renders it inside containers. -/
def pyRepr : Json → String
  | .null => "None"
  | .bool true => "True"
  | .bool false => "False"
  | .num n => toString n
  | .str s => "\x27" ++ s ++ "\x27"
  | .arr xs => "[" ++ pyReprList xs ++ "]"
  | .obj fs => "\x7b" ++ pyReprFields fs ++ "\x7d"

/-- Comma-separated reprs of array elements. -/
def pyReprList : JsonList → String
  | .nil => ""
  | .cons x .nil => pyRepr x
  | .cons x xs => pyRepr x ++ ", " ++ pyReprList xs

/-- Comma-separated reprs of object fields. -/
def pyReprFields : JsonFields → String
  | .nil => ""
  | .cons k v .nil => "\x27" ++ k ++ "\x27: " ++ pyRepr v
  | .cons k v fs => "\x27" ++ k ++ "\x27: " ++ pyRepr v ++ ", " ++ pyReprFields fs
end

/-- Python str() of a parsed-JSON value: a string prints itself bare, everything
else prints as its repr. -/
def pyStr : Json → String
  | .str s => s
  | v => pyRepr v

/-- Lookup of a key among object fields, first match wins. -/
def JsonFields.lookup (k : String) : JsonFields → Option Json
  | .nil => none
  | .cons k2 v fs => if k = k2 then some v else JsonFields.lookup k fs

/-- Convert an embedded JSON array to a Lean list. -/
def JsonList.toList : JsonList → List Json
  | .nil => []
  | .cons x xs => x :: xs.toList

/-- Python exceptions that the embedded client code can raise. -/
inductive PyExc where
  /-- json.decoder.JSONDecodeError from parsing a non-JSON body. -/
  | jsonDecodeError
  /-- KeyError from indexing a dict with an absent key. -/
  | keyError (k : String)
  /-- TypeError, with a short description of the offending operation. -/
  | typeError (what : String)
  /-- NameError from evaluating an unbound local name. -/
  | nameError (n : String)
  /-- AttributeError from accessing an attribute the object lacks. -/
  | attributeError (a : String)
  /-- simplepay.NotFound raised for 404 responses; the argument is the message. -/
  | notFound (msg : Json)
  /-- simplepay.SimplePayException raised for other failure responses. -/
  | simplePay (msg : Json)
deriving DecidableEq, Repr

/-- Wire response: status code, raw body text, and the outcome of parsing the
body as JSON (none when the body is not valid JSON). -/
structure Response where
  status : Nat
  text : String
  json : Option Json
deriving DecidableEq, Repr

/-- Python subscript v[k] for a string key: a dict yields the value or KeyError,
any other parsed-JSON value raises TypeError. -/
def getItem (v : Json) (k : String) : Except PyExc Json :=
  match v with
  | .obj fs =>
    match fs.lookup k with
    | some x => .ok x
    | none => .error (.keyError k)
  | _ => .error (.typeError "string subscript on non-dict")

/-- Python membership test k in v for a dict (only reached on dicts in the
embedded code paths). -/
def hasKey (v : Json) (k : String) : Bool :=
  match v with
  | .obj fs => (fs.lookup k).isSome
  | _ => false

/-- Value at key k of a dict, defaulting to null; only used under hasKey. -/
def getD (v : Json) (k : String) : Json :=
  match v with
  | .obj fs => (fs.lookup k).getD .null
  | _ => .null

/-- Iterating a Python str yields its characters as one-character strings;
this is what list plus-equals str appends element by element. -/
def charsAsJson : List Char → JsonList
  | [] => .nil
  | c :: cs => .cons (.str (String.mk [c])) (charsAsJson cs)

/-- Append two embedded JSON arrays. -/
def JsonList.append : JsonList → JsonList → JsonList
  | .nil, ys => ys
  | .cons x xs, ys => .cons x (xs.append ys)

/-- Python plus-equals m += s of a str s onto a parsed-JSON value m: a string
concatenates; a list is extended in place with the characters of s, each as a
one-character string; every other parsed-JSON type (dict, number, bool, None)
raises TypeError. -/
def pyConcat (m : Json) (s : String) : Except PyExc Json :=
  match m with
  | .str t => .ok (.str (t ++ s))
  | .arr xs => .ok (.arr (xs.append (charsAsJson s.data)))
  | _ => .error (.typeError "unsupported operand for plus-equals")

/-- requests computes Response.ok by calling raise_for_status, which raises
exactly for client errors (400 to 499) and server errors (500 to 599); every
other status, including 600 to 999, counts as ok. -/
def requests_ok (status : Nat) : Bool :=
  !(decide (400 ≤ status) && decide (status < 600))

/-- aiohttp defines ClientResponse.ok as status below 400. -/
def aiohttp_ok (status : Nat) : Bool := status < 400

/-- Blocking executor SimplePay.request, classification of a received response
(src/simplepay/init, lines 63 to 80).
On 404 it tries message = response.json()[message-key] catching only
JSONDecodeError (fallback to raw text) and raises NotFound; a KeyError or
TypeError from the subscript escapes. On any other not-ok status it first
parses the body outside any try (a parse failure escapes as JSONDecodeError),
then builds message from the message field, appending str of the errors field
when present, and raises SimplePayException with that message; the except
clause around the dict operations catches only JSONDecodeError, which those
operations never raise. On statuses requests reports as ok, which includes
600 to 999 besides everything below 400, it returns the raw response. -/
def request (r : Response) : Except PyExc Response :=
  if r.status = 404 then
    match r.json with
    | none => .error (.notFound (.str r.text))
    | some v =>
      match getItem v "message" with
      | .ok m => .error (.notFound m)
      | .error e => .error e
  else if requests_ok r.status = false then
    match r.json with
    | none => .error .jsonDecodeError
    | some v =>
      match getItem v "message" with
      | .error e => .error e
      | .ok m =>
        match (if hasKey v "errors" then pyConcat m (pyStr (getD v "errors")) else .ok m) with
        | .error e => .error e
        | .ok m2 => .error (.simplePay m2)
  else
    .ok r

/-- Message of the TypeError raised by awaiting the bound method object
response.text instead of calling it (request_async, line 116). -/
def awaitMethodTypeError : PyExc :=
  .typeError "object method cannot be used in await expression"

/-- Non-blocking executor SimplePay.request_async, classification of a received
response (src/simplepay/init, lines 109 to 134).
On 404 it awaits response.json() catching only JSONDecodeError; the fallback
awaits the bound method response.text without calling it, which raises a
TypeError; on parse success it indexes the message key (KeyError or TypeError
escapes) and raises NotFound. On any other not-ok status it awaits
response.json() inside a try whose handler logs and re-raises the same
exception, then builds the same message as the blocking executor but raises
SimplePayException with the f-string Status: status: message. On statuses
aiohttp reports as ok, meaning everything below 400, it returns the awaited
parsed JSON body, so a parse failure there raises JSONDecodeError. -/
def request_async (r : Response) : Except PyExc Json :=
  if r.status = 404 then
    match r.json with
    | none => .error awaitMethodTypeError
    | some v =>
      match getItem v "message" with
      | .ok m => .error (.notFound m)
      | .error e => .error e
  else if aiohttp_ok r.status = false then
    match r.json with
    | none => .error .jsonDecodeError
    | some v =>
      match getItem v "message" with
      | .error e => .error e
      | .ok m =>
        match (if hasKey v "errors" then pyConcat m (pyStr (getD v "errors")) else .ok m) with
        | .error e => .error e
        | .ok m2 =>
          .error (.simplePay (.str ("Status: " ++ toString r.status ++ ": " ++ pyStr m2)))
  else
    match r.json with
    | none => .error .jsonDecodeError
    | some v => .ok v

/-- An HTTP request dispatched by the client: verb, resource path relative to
the base origin, and optional JSON body. -/
structure SentRequest where
  method : String
  resource : String
  body : Option Json
deriving DecidableEq, Repr

/-- Local names bound in the body of SimplePay.create_calculation when the
keyword argument of the first request call is evaluated: the parameters
employee_id and calculation (self is irrelevant to name lookup of data). -/
def create_calculation_env (employee_id : String) (calculation : Json) :
    String → Option Json :=
  fun n =>
    if n = "employee_id" then some (.str employee_id)
    else if n = "calculation" then some calculation
    else none

/-- SimplePay.create_calculation (src/simplepay/init, lines 483 to 497).
Its body evaluates the keyword argument json=data of a request to the bulk
leave-day endpoint; Python evaluates call arguments before invoking the
callee, and the name data is unbound in this scope, so a NameError is raised
before any request is dispatched. The never-reached continuation would send
that first request and then a GET to the inherited-calculations endpoint.
The result pairs the list of requests actually dispatched with the outcome. -/
def create_calculation (employee_id : String) (calculation : Json) :
    List SentRequest × Except PyExc Json :=
  match create_calculation_env employee_id calculation "data" with
  | none => ([], .error (.nameError "data"))
  | some d =>
      ([⟨"POST", "/employees/" ++ employee_id ++ "/leave_days/create_multiple", some d⟩,
        ⟨"GET", "/employees/" ++ employee_id ++ "/inherited_calculations", none⟩],
       .ok .null)

/-- One entry of the bulk leave-day body built by SimplePay.add_leave_days
(line 341): a dict with keys date, hours (always None) and type_id, where
int() on the already-int type_id is the identity. -/
def leave_day_entry (type_id : Int) (date : String) : Json :=
  .obj (.cons "date" (.str date)
       (.cons "hours" .null
       (.cons "type_id" (.num type_id) .nil)))

/-- The list comprehension of add_leave_days (lines 340 to 343): one entry per
input date, in input order. -/
def leave_day_entries (type_id : Int) : List String → JsonList
  | [] => .nil
  | d :: ds => .cons (leave_day_entry type_id d) (leave_day_entries type_id ds)

/-- SimplePay.add_leave_days (lines 329 to 347): builds the dates body and
POSTs it to the bulk leave-day creation endpoint. -/
def add_leave_days_request (employee_id : String) (type_id : Int)
    (leave_days : List String) : SentRequest :=
  ⟨"POST", "/employees/" ++ employee_id ++ "/leave_days/create_multiple",
   some (.obj (.cons "dates" (.arr (leave_day_entries type_id leave_days)) .nil))⟩

/-- The value random.randrange(lo, hi) takes on a given draw of the underlying
generator: lo plus a remainder below hi minus lo; as draw ranges over all
naturals these are exactly the possible results. -/
def randrange (lo hi draw : Nat) : Nat := lo + draw % (hi - lo)

/-- Sleep time of request_async in milliseconds (line 100): the source
computes randrange(20, 100) / 100.0 seconds, which is exactly the drawn value
times 10 milliseconds. -/
def sleep_time_ms (draw : Nat) : Nat := randrange 20 100 draw * 10

/-- Events of the asynchronous executor relevant to ordering: the cooperative
sleep and the dispatch of the network request. -/
inductive AsyncEvent where
  | sleep (ms : Nat)
  | dispatch (method : String) (resource : String)
deriving DecidableEq, Repr

/-- Event order of request_async up to the network call (lines 98 to 108): it
awaits the randomized sleep first, then opens the client session and
dispatches the request. -/
def request_async_events (draw : Nat) (method resource : String) : List AsyncEvent :=
  [.sleep (sleep_time_ms draw), .dispatch method resource]

/-- Python runtime values flowing through get_leave_days_async. -/
inductive PyValue where
  /-- The coroutine object returned when an async function is called without
  await; the body of the async function has not started running. -/
  | coroutine (resource : String)
  /-- A parsed-JSON value. -/
  | jsonVal (v : Json)
deriving DecidableEq, Repr

/-- Calling request_async without awaiting it (line 324) creates a coroutine
object; no sleep happens and no request is dispatched. -/
def request_async_unawaited (resource : String) : PyValue := .coroutine resource

/-- Python for-statement iteration over a value: a coroutine object is not
iterable, so the for statement raises TypeError; a parsed JSON array yields
its elements. -/
def pyIter : PyValue → Except PyExc (List Json)
  | .coroutine _ => .error (.typeError "coroutine object is not iterable")
  | .jsonVal (.arr xs) => .ok xs.toList
  | .jsonVal _ => .error (.typeError "value is not iterable")

/-- SimplePay.get_leave_days_async (lines 314 to 327): declared as an ordinary
def, not async. It binds resp to the un-awaited coroutine returned by calling
request_async, then runs a for statement over resp, which raises TypeError
because a coroutine object is not iterable. The per-item extraction in the
loop body is never reached. The result pairs the asynchronous events that
actually occurred with the outcome. -/
def get_leave_days_async (employee_id : String) :
    List AsyncEvent × Except PyExc (List Json) :=
  match pyIter (request_async_unawaited ("/employees/" ++ employee_id ++ "/leave_days")) with
  | .error e => ([], .error e)
  | .ok items => ([], .ok items)

/-- Attribute access .json on a parsed-JSON body: none of the Python types a
JSON body parses to (dict, list, str, int, float, bool, NoneType) defines an
attribute named json, so the access raises AttributeError. -/
def jsonAttr (_ : Json) : Except PyExc Json :=
  .error (.attributeError "json")

/-- SimplePay.get_payslips_async (lines 375 to 388): awaits request_async for
the payslip listing endpoint, which on success returns the already-parsed JSON
body, then iterates resp.json(); the attribute access on the parsed value
raises AttributeError, so the loop over payslips is never reached. The
argument is the wire response of the HTTP exchange. -/
def get_payslips_async (r : Response) : Except PyExc (List Json) :=
  match request_async r with
  | .error e => .error e
  | .ok body =>
    match jsonAttr body with
    | .error e => .error e
    | .ok parsed =>
      match parsed with
      | .arr xs => .ok xs.toList
      | _ => .error (.typeError "value is not iterable")

/-- Parsed JSON body of the invalid-token 401 response of the spec scenario. -/
def resp401body : Json :=
  .obj (.cons "message" (.str "Invalid token")
       (.cons "errors" (.arr (.cons (.str "token_invalid") .nil)) .nil))

/-- Concrete response: HTTP 401 with the invalid-token JSON body used as the
spec scenario for generic failures. -/
def resp401 : Response :=
  ⟨401, "\x7b\x22message\x22: \x22Invalid token\x22, \x22errors\x22: [\x22token_invalid\x22]\x7d",
   some resp401body⟩

/-- Concrete response: HTTP 500 whose body is plain text, not valid JSON. -/
def resp500nonjson : Response := ⟨500, "Internal Server Error", none⟩

/-- Concrete response: HTTP 404 whose body is the empty JSON object, which
parses fine but has no message field. -/
def resp404obj : Response := ⟨404, "\x7b\x7d", some (.obj .nil)⟩

/-- Concrete response: HTTP 404 with a JSON body carrying a message field. -/
def resp404msg : Response :=
  ⟨404, "\x7b\x22message\x22: \x22Employee not found\x22\x7d",
   some (.obj (.cons "message" (.str "Employee not found") .nil))⟩

/-- Concrete response: HTTP 200 whose body is plain text, not valid JSON. -/
def resp200nonjson : Response := ⟨200, "hello", none⟩

/-- Concrete response: HTTP 200 with a parseable JSON body. -/
def resp200ok : Response :=
  ⟨200, "\x7b\x22employee\x22: \x7b\x22id\x22: 1\x7d\x7d",
   some (.obj (.cons "employee" (.obj (.cons "id" (.num 1) .nil)) .nil))⟩

/-- C1: the claim that every non-2xx, non-404 response with a non-JSON body
makes the executor raise the generic SimplePayException carrying the raw
response text fails on the code. At an HTTP 500 whose body is plain text both
executors let the JSONDecodeError from parsing the body escape to the caller
(the blocking executor parses outside its try block, the non-blocking one
catches, logs and re-raises the same exception), and no SimplePayException is
raised at all. -/
theorem c1_nonjson_failure_parse_error_escapes :
    request resp500nonjson = .error .jsonDecodeError ∧
    request_async resp500nonjson = .error .jsonDecodeError ∧
    (∀ m, request resp500nonjson ≠ .error (.simplePay m)) := by
  refine ⟨rfl, rfl, ?_⟩
  intro m h
  rw [show request resp500nonjson = Except.error PyExc.jsonDecodeError from rfl] at h
  exact PyExc.noConfusion (Except.error.inj h)

/-- Helper: on every status aiohttp reports as not ok, the non-blocking
executor ends in some raised exception, never in a normal return. -/
theorem request_async_failure_is_error (r : Response) (h : aiohttp_ok r.status = false) :
    ∃ e, request_async r = .error e := by
  by_cases h404 : r.status = 404
  · rcases hj : r.json with _ | v
    · exact ⟨awaitMethodTypeError, by simp [request_async, h404, hj]⟩
    · rcases hm : getItem v "message" with e | m
      · exact ⟨e, by simp [request_async, h404, hj, hm]⟩
      · exact ⟨.notFound m, by simp [request_async, h404, hj, hm]⟩
  · rcases hj : r.json with _ | v
    · exact ⟨.jsonDecodeError, by simp [request_async, h404, h, hj]⟩
    · rcases hm : getItem v "message" with e | m
      · exact ⟨e, by simp [request_async, h404, h, hj, hm]⟩
      · rcases hc : (if hasKey v "errors"
            then pyConcat m (pyStr (getD v "errors")) else Except.ok m) with e | m2
        · exact ⟨e, by simp [request_async, h404, h, hj, hm, hc]⟩
        · exact ⟨.simplePay (.str (("Status: " ++ toString r.status ++ ": ") ++ pyStr m2)),
            by simp [request_async, h404, h, hj, hm, hc]⟩

/-- C2 (amended): the two executors share the classification structure only on
the failure region common to both libraries. For statuses 400 to 599 they
raise the same exception, except that on non-404 failures with a built message
the non-blocking generic message is the blocking one rendered through str and
prefixed with the status code, and a 404 with a non-JSON body makes the
blocking executor raise NotFound with the raw text while the non-blocking one
raises a TypeError from awaiting the bound method response.text. For statuses
600 and above requests reports ok while aiohttp does not: the blocking
executor returns the raw response and the non-blocking one still raises. -/
theorem c2_request_async_matches_request (r : Response) (h4 : 400 ≤ r.status) :
    (r.status < 600 →
      (∃ e, request r = .error e ∧ request_async r = .error e) ∨
      (∃ m, request r = .error (.simplePay m) ∧
        request_async r = .error (.simplePay (.str
          (("Status: " ++ toString r.status ++ ": ") ++ pyStr m)))) ∨
      (r.status = 404 ∧ r.json = none ∧
        request r = .error (.notFound (.str r.text)) ∧
        request_async r = .error awaitMethodTypeError)) ∧
    (600 ≤ r.status →
      request r = .ok r ∧ ∀ v, request_async r ≠ .ok v) := by
  constructor
  · intro h6
    by_cases h404 : r.status = 404
    · rcases hj : r.json with _ | v
      · exact Or.inr (Or.inr ⟨h404, rfl, by simp [request, h404, hj],
          by simp [request_async, h404, hj]⟩)
      · rcases hm : getItem v "message" with e | m
        · exact Or.inl ⟨e, by simp [request, h404, hj, hm],
            by simp [request_async, h404, hj, hm]⟩
        · exact Or.inl ⟨.notFound m, by simp [request, h404, hj, hm],
            by simp [request_async, h404, hj, hm]⟩
    · have hok : requests_ok r.status = false := by simp [requests_ok]; omega
      have haok : aiohttp_ok r.status = false := by simp [aiohttp_ok]; omega
      rcases hj : r.json with _ | v
      · exact Or.inl ⟨.jsonDecodeError, by simp [request, h404, hok, hj],
          by simp [request_async, h404, haok, hj]⟩
      · rcases hm : getItem v "message" with e | m
        · exact Or.inl ⟨e, by simp [request, h404, hok, hj, hm],
            by simp [request_async, h404, haok, hj, hm]⟩
        · rcases hc : (if hasKey v "errors"
              then pyConcat m (pyStr (getD v "errors")) else Except.ok m) with e | m2
          · exact Or.inl ⟨e, by simp [request, h404, hok, hj, hm, hc],
              by simp [request_async, h404, haok, hj, hm, hc]⟩
          · exact Or.inr (Or.inl ⟨m2, by simp [request, h404, hok, hj, hm, hc],
              by simp [request_async, h404, haok, hj, hm, hc]⟩)
  · intro h6
    have h404 : r.status ≠ 404 := by omega
    have hok : requests_ok r.status = true := by simp [requests_ok]; omega
    have haok : aiohttp_ok r.status = false := by simp [aiohttp_ok]; omega
    refine ⟨by simp [request, h404, hok], ?_⟩
    intro v hv
    obtain ⟨e, he⟩ := request_async_failure_is_error r haok
    rw [he] at hv
    exact Except.noConfusion hv

/-- C2 witness: the correspondence instantiated at the 401 invalid-token
response. -/
theorem c2_request_async_matches_request_witness :
    (resp401.status < 600 →
      (∃ e, request resp401 = .error e ∧ request_async resp401 = .error e) ∨
      (∃ m, request resp401 = .error (.simplePay m) ∧
        request_async resp401 = .error (.simplePay (.str
          (("Status: " ++ toString resp401.status ++ ": ") ++ pyStr m)))) ∨
      (resp401.status = 404 ∧ resp401.json = none ∧
        request resp401 = .error (.notFound (.str resp401.text)) ∧
        request_async resp401 = .error awaitMethodTypeError)) ∧
    (600 ≤ resp401.status →
      request resp401 = .ok resp401 ∧ ∀ v, request_async resp401 ≠ .ok v) :=
  c2_request_async_matches_request resp401 (by decide)

/-- C2 counterexample: at the 401 invalid-token response both executors raise
the generic failure but with different messages, refuting the claim that the
two modes produce the same message. -/
theorem c2_sync_async_messages_differ :
    request resp401 = .error (.simplePay (.str "Invalid token[\x27token_invalid\x27]")) ∧
    request_async resp401 =
      .error (.simplePay (.str "Status: 401: Invalid token[\x27token_invalid\x27]")) ∧
    ("Status: 401: Invalid token[\x27token_invalid\x27]" : String) ≠
      "Invalid token[\x27token_invalid\x27]" :=
  ⟨rfl, rfl, by decide⟩

/-- C3 (amended): for every 404 response, when the body parses as JSON and
indexing its message field succeeds, both executors raise NotFound with that
field as message; when JSON parsing fails, the blocking executor raises
NotFound with the raw response text while the non-blocking one raises a
TypeError from awaiting the bound method response.text; and when the body
parses but indexing the message field fails (absent field or non-dict body),
that error escapes instead of NotFound in both executors. -/
theorem c3_request_404_classification (r : Response) (h : r.status = 404) :
    (∀ v m, r.json = some v → getItem v "message" = .ok m →
      request r = .error (.notFound m) ∧ request_async r = .error (.notFound m)) ∧
    (r.json = none →
      request r = .error (.notFound (.str r.text)) ∧
      request_async r = .error awaitMethodTypeError) ∧
    (∀ v e, r.json = some v → getItem v "message" = .error e →
      request r = .error e ∧ request_async r = .error e) := by
  refine ⟨?_, ?_, ?_⟩
  · intro v m hj hm
    exact ⟨by simp [request, h, hj, hm], by simp [request_async, h, hj, hm]⟩
  · intro hj
    exact ⟨by simp [request, h, hj], by simp [request_async, h, hj]⟩
  · intro v e hj hm
    exact ⟨by simp [request, h, hj, hm], by simp [request_async, h, hj, hm]⟩

/-- C3 witness: the 404 classification instantiated at a 404 response whose
JSON body carries a message field. -/
theorem c3_request_404_classification_witness :
    (∀ v m, resp404msg.json = some v → getItem v "message" = .ok m →
      request resp404msg = .error (.notFound m) ∧
      request_async resp404msg = .error (.notFound m)) ∧
    (resp404msg.json = none →
      request resp404msg = .error (.notFound (.str resp404msg.text)) ∧
      request_async resp404msg = .error awaitMethodTypeError) ∧
    (∀ v e, resp404msg.json = some v → getItem v "message" = .error e →
      request resp404msg = .error e ∧ request_async resp404msg = .error e) :=
  c3_request_404_classification resp404msg rfl

/-- C3 counterexample: a 404 whose body is the empty JSON object parses fine
but lacks a message field; the blocking executor lets a KeyError escape, and a
KeyError is not the claimed NotFound failure carrying the raw response text. -/
theorem c3_404_missing_message_keyerror :
    request resp404obj = .error (.keyError "message") ∧
    PyExc.keyError "message" ≠ PyExc.notFound (.str resp404obj.text) :=
  ⟨rfl, by decide⟩

/-- C4 (amended): for a response whose JSON body holds a string message field
and an errors field, at failure statuses other than 404: when the status is
below 600 the blocking executor raises the generic failure whose message is
the message value concatenated with the str form of the errors value, while at
600 and above, which requests reports as ok, it instead returns the raw
response; the non-blocking executor, whose ok check is status below 400,
raises the generic failure with the concatenated text prefixed by Status and
the status code at every such status. -/
theorem c4_generic_message_concat (r : Response) (v : Json) (s : String)
    (hj : r.json = some v) (h4 : 400 ≤ r.status) (hne : r.status ≠ 404)
    (hm : getItem v "message" = .ok (.str s)) (he : hasKey v "errors" = true) :
    (r.status < 600 →
      request r = .error (.simplePay (.str (s ++ pyStr (getD v "errors"))))) ∧
    (600 ≤ r.status → request r = .ok r) ∧
    request_async r = .error (.simplePay (.str
      (("Status: " ++ toString r.status ++ ": ") ++ (s ++ pyStr (getD v "errors"))))) := by
  have haok : aiohttp_ok r.status = false := by simp [aiohttp_ok]; omega
  refine ⟨?_, ?_, ?_⟩
  · intro h6
    have hok : requests_ok r.status = false := by simp [requests_ok]; omega
    simp [request, hne, hok, hj, hm, he, pyConcat]
  · intro h6
    have hok : requests_ok r.status = true := by simp [requests_ok]; omega
    simp [request, hne, hok]
  · simp [request_async, hne, haok, hj, hm, he, pyConcat, pyStr]

/-- C4 witness: the concatenation law instantiated at the 401 invalid-token
response; the blocking message is the plain concatenation of the spec
scenario, the non-blocking one carries the status prefix. -/
theorem c4_generic_message_concat_witness :
    (resp401.status < 600 →
      request resp401 = .error (.simplePay (.str
        ("Invalid token" ++ pyStr (getD resp401body "errors"))))) ∧
    (600 ≤ resp401.status → request resp401 = .ok resp401) ∧
    request_async resp401 = .error (.simplePay (.str
      (("Status: " ++ toString resp401.status ++ ": ") ++
       ("Invalid token" ++ pyStr (getD resp401body "errors"))))) :=
  c4_generic_message_concat resp401 resp401body "Invalid token"
    rfl (by decide) (by decide) rfl rfl

/-- C4 counterexample: at the 401 invalid-token response the non-blocking
executor raises the generic failure with the status-prefixed message, which
differs from the plain concatenation the claim states for every executor. -/
theorem c4_async_message_not_plain_concat :
    request_async resp401 =
      .error (.simplePay (.str "Status: 401: Invalid token[\x27token_invalid\x27]")) ∧
    ("Status: 401: Invalid token[\x27token_invalid\x27]" : String) ≠
      "Invalid token[\x27token_invalid\x27]" :=
  ⟨rfl, by decide⟩

/-- C5 (amended): on every 2xx response the blocking executor raises no failure
and returns the raw response unmodified; the non-blocking executor instead
returns the parsed JSON body, and raises the JSON parse error when the body is
not valid JSON. -/
theorem c5_request_2xx (r : Response) (h2 : 200 ≤ r.status) (h3 : r.status < 300) :
    request r = .ok r ∧
    (∀ v, r.json = some v → request_async r = .ok v) ∧
    (r.json = none → request_async r = .error .jsonDecodeError) := by
  have hne : r.status ≠ 404 := by omega
  have hok : requests_ok r.status = true := by simp [requests_ok]; omega
  have haok : aiohttp_ok r.status = true := by simp [aiohttp_ok]; omega
  refine ⟨by simp [request, hne, hok], ?_, ?_⟩
  · intro v hj
    simp [request_async, hne, haok, hj]
  · intro hj
    simp [request_async, hne, haok, hj]

/-- C5 witness: the 2xx behavior instantiated at a 200 response with a
parseable JSON body. -/
theorem c5_request_2xx_witness :
    request resp200ok = .ok resp200ok ∧
    (∀ v, resp200ok.json = some v → request_async resp200ok = .ok v) ∧
    (resp200ok.json = none → request_async resp200ok = .error .jsonDecodeError) :=
  c5_request_2xx resp200ok (by decide) (by decide)

/-- C5 counterexample: a 200 response whose body is not valid JSON makes the
non-blocking executor raise the JSON parse error, refuting the claim that 2xx
responses raise no failure in both modes. -/
theorem c5_async_2xx_raises_on_nonjson :
    resp200nonjson.status = 200 ∧
    request_async resp200nonjson = .error .jsonDecodeError :=
  ⟨rfl, rfl⟩

/-- C6: for every employee id and calculation, create_calculation evaluates the
unbound name data while building the arguments of its first request call, so a
NameError is raised before anything is dispatched: the list of sent requests
is empty and in particular no calculation body ever reaches the
calculation-creation endpoint. -/
theorem c6_create_calculation_name_error (eid : String) (c : Json) :
    (create_calculation eid c).1 = [] ∧
    (create_calculation eid c).2 = .error (.nameError "data") :=
  ⟨rfl, rfl⟩

/-- C7: add_leave_days sends a POST to the bulk leave-day creation endpoint
whose body has a single dates field holding one entry per input date, in input
order, each entry being a dict of the date string, null hours, and the integer
type id. -/
theorem c7_add_leave_days_body (eid : String) (tid : Int) (days : List String) :
    (add_leave_days_request eid tid days).method = "POST" ∧
    (add_leave_days_request eid tid days).resource =
      "/employees/" ++ eid ++ "/leave_days/create_multiple" ∧
    ∃ entries : JsonList,
      (add_leave_days_request eid tid days).body =
        some (.obj (.cons "dates" (.arr entries) .nil)) ∧
      entries.toList = days.map (fun date =>
        .obj (.cons "date" (.str date)
             (.cons "hours" .null
             (.cons "type_id" (.num tid) .nil)))) := by
  refine ⟨rfl, rfl, leave_day_entries tid days, rfl, ?_⟩
  induction days with
  | nil => rfl
  | cons d ds ih => simp [leave_day_entries, JsonList.toList, leave_day_entry, ih]

/-- C8: for every possible outcome of the random draw, the delay the
asynchronous executor sleeps is at least 200 and strictly below 1000
milliseconds, and the sleep event precedes the dispatch of the request. -/
theorem c8_async_delay_bounds (draw : Nat) (method resource : String) :
    200 ≤ sleep_time_ms draw ∧ sleep_time_ms draw < 1000 ∧
    (request_async_events draw method resource)[0]? =
      some (.sleep (sleep_time_ms draw)) ∧
    (request_async_events draw method resource)[1]? =
      some (.dispatch method resource) := by
  refine ⟨?_, ?_, rfl, rfl⟩ <;>
  · simp [sleep_time_ms, randrange]
    omega

/-- C9: get_leave_days_async always raises TypeError from iterating the
un-awaited coroutine returned by request_async: no asynchronous event ever
happens, and the method never yields a leave-day list. -/
theorem c9_get_leave_days_async_type_error (eid : String) :
    (get_leave_days_async eid).1 = [] ∧
    (get_leave_days_async eid).2 =
      .error (.typeError "coroutine object is not iterable") ∧
    (∀ l, (get_leave_days_async eid).2 ≠ .ok l) := by
  refine ⟨rfl, rfl, ?_⟩
  intro l h
  rw [show (get_leave_days_async eid).2 =
    .error (.typeError "coroutine object is not iterable") from rfl] at h
  exact Except.noConfusion h

/-- C10: get_payslips_async never returns a payslip list on a 2xx response:
when the body parses, request_async hands back the parsed JSON value and the
json attribute access on it raises AttributeError; when the body does not
parse, the parse error propagates; in no case does the method return a list. -/
theorem c10_get_payslips_async_attribute_error (r : Response)
    (h2 : 200 ≤ r.status) (h3 : r.status < 300) :
    (∀ v, r.json = some v → get_payslips_async r = .error (.attributeError "json")) ∧
    (∀ l, get_payslips_async r ≠ .ok l) := by
  have hne : r.status ≠ 404 := by omega
  have haok : aiohttp_ok r.status = true := by simp [aiohttp_ok]; omega
  constructor
  · intro v hj
    simp [get_payslips_async, request_async, hne, haok, hj, jsonAttr]
  · intro l h
    rcases hj : r.json with _ | v
    · have hval : get_payslips_async r = .error .jsonDecodeError := by
        simp [get_payslips_async, request_async, hne, haok, hj]
      rw [hval] at h
      exact Except.noConfusion h
    · have hval : get_payslips_async r = .error (.attributeError "json") := by
        simp [get_payslips_async, request_async, hne, haok, hj, jsonAttr]
      rw [hval] at h
      exact Except.noConfusion h

/-- C10 witness: the attribute failure instantiated at a 200 response with a
parseable JSON body. -/
theorem c10_get_payslips_async_attribute_error_witness :
    (∀ v, resp200ok.json = some v →
      get_payslips_async resp200ok = .error (.attributeError "json")) ∧
    (∀ l, get_payslips_async resp200ok ≠ .ok l) :=
  c10_get_payslips_async_attribute_error resp200ok (by decide) (by decide)

/-- C6 witness: the NameError outcome instantiated at a concrete employee id
and calculation body. -/
theorem c6_create_calculation_name_error_witness :
    (create_calculation "1" (Json.obj .nil)).1 = [] ∧
    (create_calculation "1" (Json.obj .nil)).2 = .error (.nameError "data") :=
  c6_create_calculation_name_error "1" (Json.obj .nil)

/-- C7 witness: the bulk body instantiated at the spec scenario of two dates
with type id 5. -/
theorem c7_add_leave_days_body_witness :
    (add_leave_days_request "1" 5 ["2024-01-01", "2024-01-02"]).method = "POST" ∧
    (add_leave_days_request "1" 5 ["2024-01-01", "2024-01-02"]).resource =
      "/employees/" ++ "1" ++ "/leave_days/create_multiple" ∧
    ∃ entries : JsonList,
      (add_leave_days_request "1" 5 ["2024-01-01", "2024-01-02"]).body =
        some (.obj (.cons "dates" (.arr entries) .nil)) ∧
      entries.toList = ["2024-01-01", "2024-01-02"].map (fun date =>
        .obj (.cons "date" (.str date)
             (.cons "hours" .null
             (.cons "type_id" (.num 5) .nil)))) :=
  c7_add_leave_days_body "1" 5 ["2024-01-01", "2024-01-02"]

/-- C8 witness: the delay bounds and event order instantiated at a concrete
draw and request. -/
theorem c8_async_delay_bounds_witness :
    200 ≤ sleep_time_ms 55 ∧ sleep_time_ms 55 < 1000 ∧
    (request_async_events 55 "GET" "/employees/1")[0]? =
      some (.sleep (sleep_time_ms 55)) ∧
    (request_async_events 55 "GET" "/employees/1")[1]? =
      some (.dispatch "GET" "/employees/1") :=
  c8_async_delay_bounds 55 "GET" "/employees/1"

/-- C9 witness: the TypeError outcome instantiated at a concrete employee id. -/
theorem c9_get_leave_days_async_type_error_witness :
    (get_leave_days_async "1").1 = [] ∧
    (get_leave_days_async "1").2 =
      .error (.typeError "coroutine object is not iterable") ∧
    (∀ l, (get_leave_days_async "1").2 ≠ .ok l) :=
  c9_get_leave_days_async_type_error "1"
